import Mathlib

/-!
Shallow embedding of the pricing / shipping / packing core of the
3d-printing-website repository (src/api/quote.py, src/api/packing_optimizer.py,
src/api/sales_tax_rates.py), together with proofs settling the claims about it.

Python numeric values are modelled as exact rationals (ℚ); Python `dict`s keyed
by a mix of strings and numbers are modelled as association lists over `PyKey`,
with Python's cross-type equality (a string key never equals a numeric key,
`4 == 4.0` holds).  Fallible code (KeyError, ZeroDivisionError) is modelled
with `Option`: `none` stands for a raised exception.  The transcendental
functions of Python's `math` module and the ZIP-coordinate cache loaded from
`uszips.csv` are external to the source under analysis, so they enter as
explicit parameters (`MathFns`, `ZipCache`).
-/

/-- Python `int(x)`: truncation toward zero. -/
def pyInt (q : ℚ) : Int :=
  if 0 ≤ q then ⌊q⌋ else ⌈q⌉

/-- Round to the nearest integer, ties to even (Python's `round`/float formatting). -/
def roundHalfEvenZ (x : ℚ) : Int :=
  let f : Int := ⌊x⌋
  let r : ℚ := x - f
  if r < 1/2 then f
  else if 1/2 < r then f + 1
  else if f % 2 = 0 then f else f + 1

/-- Python `round(x, n)` for `n` decimal digits. -/
def pyRound (x : ℚ) (n : Nat) : ℚ :=
  (roundHalfEvenZ (x * 10 ^ n) : ℚ) / 10 ^ n

/-- Python true division `a / b`: raises `ZeroDivisionError` when `b = 0`. -/
def pyDiv (a b : ℚ) : Option ℚ :=
  if b = 0 then none else some (a / b)

/-- A Python `dict` key that is either a string or a number.  Matches Python
equality semantics for the keys occurring in the rate tables: numbers compare
by value (`4 == 4.0`), and a string never equals a number. -/
inductive PyKey where
  | str (s : String)
  | num (q : ℚ)
deriving DecidableEq, Repr

/-- Python `d[k]` on a dict modelled as an association list: `none` is `KeyError`. -/
def pyGet {α : Type} (d : List (PyKey × α)) (k : PyKey) : Option α :=
  (d.find? (fun e => e.1 = k)).map (·.2)

/-- Python `d[z]` on an inner zone row (keys are the ints 1..9). -/
def zoneGet (row : List (Nat × ℚ)) (z : Nat) : Option ℚ :=
  (row.find? (fun e => e.1 = z)).map (·.2)

/-- One zone row `{1: a, ..., 9: i}` of a USPS rate table. -/
def zrow (a b c d e f g h i : ℚ) : List (Nat × ℚ) :=
  [(1, a), (2, b), (3, c), (4, d), (5, e), (6, f), (7, g), (8, h), (9, i)]
def USPS_GROUND_ADVANTAGE_RETAIL : List (PyKey × List (Nat × ℚ)) := [
  (PyKey.str "4_oz", zrow 7.20 7.25 7.35 7.50 7.80 7.90 8.10 8.40 8.40),
  (PyKey.str "8_oz", zrow 7.50 7.70 7.85 8.00 8.35 8.55 8.80 9.25 9.25),
  (PyKey.str "12_oz", zrow 8.55 8.85 9.05 9.30 9.75 10.00 10.45 11.10 11.10),
  (PyKey.str "15_999_oz", zrow 9.10 9.45 9.75 10.10 10.65 11.00 11.55 12.45 12.45),
  (PyKey.num 1, zrow 9.10 9.45 9.75 10.10 10.65 11.00 11.55 12.45 12.45),
  (PyKey.num 2, zrow 9.85 10.45 11.05 11.80 12.80 13.70 14.90 17.15 17.15),
  (PyKey.num 3, zrow 10.25 10.90 11.45 12.40 13.60 14.90 17.05 20.10 20.10),
  (PyKey.num 4, zrow 11.30 11.75 12.55 13.60 15.35 17.00 19.25 22.20 22.20),
  (PyKey.num 5, zrow 11.95 12.45 13.30 14.45 16.25 18.15 20.60 23.75 23.75),
  (PyKey.num 6, zrow 12.40 12.75 13.60 14.90 17.10 19.40 22.30 25.80 25.80),
  (PyKey.num 7, zrow 12.85 13.20 14.05 15.55 18.00 20.75 23.95 27.75 27.75),
  (PyKey.num 8, zrow 13.35 13.60 14.45 16.05 18.85 22.05 25.90 30.00 30.00),
  (PyKey.num 9, zrow 13.80 14.05 14.80 16.60 19.70 23.35 27.85 32.20 32.20),
  (PyKey.num 10, zrow 14.55 14.85 15.65 17.55 20.95 25.05 30.15 35.50 35.50),
  (PyKey.num 11, zrow 15.60 16.05 16.80 18.80 23.15 27.75 33.45 39.85 39.85),
  (PyKey.num 12, zrow 16.20 16.60 17.25 19.55 24.20 29.35 35.80 42.65 42.65),
  (PyKey.num 13, zrow 16.85 17.15 17.70 20.00 25.10 30.95 38.45 46.55 46.55),
  (PyKey.num 14, zrow 17.50 17.60 18.15 20.70 26.30 32.85 41.20 50.00 50.00),
  (PyKey.num 15, zrow 18.15 18.25 18.80 21.25 27.30 34.15 42.80 52.15 52.15),
  (PyKey.num 16, zrow 18.80 18.95 19.50 22.20 28.40 35.45 44.40 54.35 54.35),
  (PyKey.num 17, zrow 19.45 19.65 20.10 23.15 29.50 36.95 46.45 56.95 56.95),
  (PyKey.num 18, zrow 20.05 20.25 20.75 23.65 30.65 38.50 48.45 59.55 59.55),
  (PyKey.num 19, zrow 20.45 20.70 21.60 24.05 31.55 39.45 49.30 61.45 61.45),
  (PyKey.num 20, zrow 20.85 21.00 22.35 24.85 32.75 40.65 50.55 62.65 62.65),
  (PyKey.num 21, zrow 23.90 25.00 26.95 31.60 39.90 48.80 58.80 70.65 70.65),
  (PyKey.num 22, zrow 25.95 27.70 30.40 36.50 45.10 54.55 64.55 75.95 75.95),
  (PyKey.num 23, zrow 27.25 29.30 32.30 39.15 48.20 58.05 68.35 79.85 79.85),
  (PyKey.num 24, zrow 28.25 30.35 33.65 40.90 50.45 60.75 71.30 83.10 83.10),
  (PyKey.num 25, zrow 29.30 31.50 34.95 42.75 52.60 63.30 74.20 86.25 86.25),
  (PyKey.num 26, zrow 32.30 34.70 38.35 46.60 58.50 69.65 80.85 93.20 93.20),
  (PyKey.num 27, zrow 33.30 35.80 39.70 48.50 60.75 72.30 83.70 96.35 96.35),
  (PyKey.num 28, zrow 34.05 36.70 40.75 49.80 62.50 74.40 86.10 99.15 99.15),
  (PyKey.num 29, zrow 34.85 37.55 41.70 51.20 64.25 76.40 88.45 101.80 101.80),
  (PyKey.num 30, zrow 35.60 38.45 42.70 52.45 65.90 78.45 90.85 104.40 104.40),
  (PyKey.num 31, zrow 36.45 39.25 43.65 53.70 67.55 80.45 93.05 107.00 107.00),
  (PyKey.num 32, zrow 37.10 40.10 44.60 55.00 69.20 82.45 95.35 109.55 109.55),
  (PyKey.num 33, zrow 37.85 40.90 45.55 56.25 70.85 84.35 97.50 112.05 112.05),
  (PyKey.num 34, zrow 38.60 41.70 46.45 57.40 72.35 86.25 99.70 114.45 114.45),
  (PyKey.num 35, zrow 39.35 42.50 47.35 58.65 74.00 88.20 101.95 116.95 116.95),
  (PyKey.num 36, zrow 40.00 43.25 48.20 59.75 75.50 90.00 104.00 119.25 119.25),
  (PyKey.num 37, zrow 40.75 44.00 49.10 61.00 77.05 91.80 106.10 121.70 121.70),
  (PyKey.num 38, zrow 41.45 44.75 49.85 62.10 78.55 93.65 108.20 124.00 124.00),
  (PyKey.num 39, zrow 42.15 45.50 50.75 63.25 80.10 95.45 110.25 126.25 126.25),
  (PyKey.num 40, zrow 42.80 46.30 51.55 64.40 81.55 97.25 112.25 128.50 128.50),
  (PyKey.num 41, zrow 43.50 47.00 52.40 65.50 83.10 99.05 114.25 130.75 130.75),
  (PyKey.num 42, zrow 44.20 47.65 53.15 66.55 84.50 100.70 116.15 132.90 132.90),
  (PyKey.num 43, zrow 44.80 48.40 53.95 67.60 85.95 102.40 118.10 135.05 135.05),
  (PyKey.num 44, zrow 45.50 49.10 54.65 68.65 87.35 104.15 120.00 137.10 137.10),
  (PyKey.num 45, zrow 46.10 49.75 55.45 69.70 88.75 105.70 121.90 139.20 139.20),
  (PyKey.num 46, zrow 46.75 50.45 56.15 70.70 90.10 107.40 123.65 141.20 141.20),
  (PyKey.num 47, zrow 47.35 51.15 56.90 71.70 91.45 108.90 125.50 143.20 143.20),
  (PyKey.num 48, zrow 47.95 51.75 57.55 72.65 92.80 110.55 127.30 145.10 145.10),
  (PyKey.num 49, zrow 48.55 52.35 58.30 73.60 94.15 112.05 129.00 147.05 147.05),
  (PyKey.num 50, zrow 49.15 53.00 58.95 74.55 95.40 113.60 130.70 148.90 148.90),
  (PyKey.num 51, zrow 49.75 53.60 59.55 75.45 96.70 115.15 132.40 150.65 150.65),
  (PyKey.num 52, zrow 50.35 54.20 60.20 76.35 97.95 116.55 134.00 152.45 152.45),
  (PyKey.num 53, zrow 50.90 54.75 60.75 77.25 99.15 118.00 135.60 154.20 154.20),
  (PyKey.num 54, zrow 51.45 55.35 61.40 78.05 100.35 119.40 137.25 155.95 155.95),
  (PyKey.num 55, zrow 51.95 55.90 62.00 78.95 101.55 120.75 138.70 157.60 157.60),
  (PyKey.num 56, zrow 52.55 56.45 62.55 79.80 102.75 122.15 140.30 159.20 159.20),
  (PyKey.num 57, zrow 53.05 57.00 63.10 80.50 103.90 123.50 141.70 160.80 160.80),
  (PyKey.num 58, zrow 53.55 57.45 63.60 81.35 105.05 124.80 143.20 162.35 162.35),
  (PyKey.num 59, zrow 54.10 58.05 64.20 82.05 106.15 126.10 144.60 163.80 163.80),
  (PyKey.num 60, zrow 54.55 58.50 64.65 82.85 107.20 127.35 146.05 165.35 165.35),
  (PyKey.num 61, zrow 55.05 59.00 65.15 83.55 108.30 128.60 147.35 166.70 166.70),
  (PyKey.num 62, zrow 55.55 59.45 65.60 84.25 109.35 129.80 148.65 168.15 168.15),
  (PyKey.num 63, zrow 56.05 59.95 66.05 85.00 110.30 130.95 149.95 169.45 169.45),
  (PyKey.num 64, zrow 56.45 60.35 66.45 85.60 111.35 132.10 151.20 170.80 170.80),
  (PyKey.num 65, zrow 56.90 60.85 66.95 86.25 112.35 133.25 152.40 172.05 172.05),
  (PyKey.num 66, zrow 57.35 61.25 67.30 86.90 113.30 134.40 153.60 173.35 173.35),
  (PyKey.num 67, zrow 57.75 61.65 67.70 87.45 114.25 135.45 154.75 174.50 174.50),
  (PyKey.num 68, zrow 58.25 62.05 68.05 88.10 115.20 136.50 155.90 175.60 175.60),
  (PyKey.num 69, zrow 58.60 62.45 68.45 88.60 116.10 137.50 156.95 176.70 176.70),
  (PyKey.num 70, zrow 59.05 62.85 68.75 89.20 117.00 138.50 158.00 177.80 177.80)
]

def USPS_PRIORITY_MAIL_RETAIL : List (PyKey × List (Nat × ℚ)) := [
  (PyKey.str "4_oz", zrow 10.45 10.90 11.10 11.30 13.00 14.20 15.35 16.60 32.60),
  (PyKey.str "8_oz", zrow 10.45 10.90 11.10 11.30 13.00 14.20 15.35 16.60 32.60),
  (PyKey.str "12_oz", zrow 10.45 10.90 11.10 11.30 13.00 14.20 15.35 16.60 32.60),
  (PyKey.str "15_999_oz", zrow 10.45 10.90 11.10 11.30 13.00 14.20 15.35 16.60 32.60),
  (PyKey.num 1, zrow 10.45 10.90 11.10 11.30 13.00 14.20 15.35 16.60 32.60),
  (PyKey.num 2, zrow 10.90 11.50 12.20 13.05 15.75 16.90 18.05 19.85 39.15),
  (PyKey.num 3, zrow 11.35 12.10 12.70 13.75 16.85 19.45 22.00 24.85 49.25),
  (PyKey.num 4, zrow 12.40 12.95 13.85 15.00 19.80 23.95 26.65 29.70 58.50),
  (PyKey.num 5, zrow 13.20 13.75 14.70 16.00 21.00 25.45 30.60 34.25 67.70),
  (PyKey.num 6, zrow 13.70 14.10 15.10 16.60 22.05 27.80 34.45 38.75 76.80),
  (PyKey.num 7, zrow 14.30 14.70 15.65 17.35 23.70 30.20 38.20 43.15 85.65),
  (PyKey.num 8, zrow 14.90 15.15 16.10 17.95 24.85 32.70 42.00 47.60 94.65),
  (PyKey.num 9, zrow 15.40 15.70 16.50 18.95 25.75 35.05 45.65 51.85 103.25),
  (PyKey.num 10, zrow 16.30 16.65 17.50 19.75 26.80 37.65 49.35 56.15 111.95),
  (PyKey.num 11, zrow 17.40 17.90 18.80 21.10 29.75 42.15 54.95 62.35 122.60),
  (PyKey.num 12, zrow 18.10 18.55 19.35 21.90 30.75 44.75 58.85 66.85 131.70),
  (PyKey.num 13, zrow 18.85 19.20 19.85 22.45 32.00 47.30 62.80 71.50 141.10),
  (PyKey.num 14, zrow 19.60 19.75 20.40 23.25 33.30 50.05 66.90 76.15 150.50),
  (PyKey.num 15, zrow 20.30 20.50 21.15 24.05 34.75 52.30 70.10 79.90 158.05),
  (PyKey.num 16, zrow 21.10 21.30 21.90 25.00 36.45 54.85 73.80 84.25 166.85),
  (PyKey.num 17, zrow 21.85 22.10 22.60 26.05 38.35 57.65 77.50 88.55 175.55),
  (PyKey.num 18, zrow 22.55 22.80 23.35 27.15 40.45 60.60 81.20 92.90 184.30),
  (PyKey.num 19, zrow 23.00 23.30 24.30 27.65 42.35 63.40 84.40 96.65 191.90),
  (PyKey.num 20, zrow 23.45 23.65 25.20 28.35 44.90 66.45 87.95 100.95 200.55),
  (PyKey.num 21, zrow 26.90 28.25 30.40 35.65 50.10 70.40 90.65 104.50 207.75),
  (PyKey.num 22, zrow 29.20 31.25 34.30 41.20 56.60 75.00 93.40 108.00 214.80),
  (PyKey.num 23, zrow 30.75 33.10 36.50 44.25 60.45 78.30 96.10 111.55 222.00),
  (PyKey.num 24, zrow 31.85 34.30 38.00 46.25 63.20 81.05 98.85 115.15 229.25),
  (PyKey.num 25, zrow 33.05 35.60 39.50 48.35 65.85 83.75 101.65 118.75 236.50),
  (PyKey.num 26, zrow 36.20 38.95 43.10 52.45 72.30 90.45 108.60 126.20 247.75),
  (PyKey.num 27, zrow 37.30 40.25 44.60 54.55 75.05 92.85 110.60 128.90 253.20),
  (PyKey.num 28, zrow 38.20 41.20 45.80 56.05 77.20 94.90 112.55 131.70 258.85),
  (PyKey.num 29, zrow 39.05 42.20 46.90 57.60 79.35 96.95 114.55 134.20 263.90),
  (PyKey.num 30, zrow 39.95 43.20 48.00 59.05 81.40 98.95 116.50 136.55 268.65),
  (PyKey.num 31, zrow 40.85 44.15 49.10 60.50 83.45 100.95 118.50 138.90 273.40),
  (PyKey.num 32, zrow 41.65 45.15 50.25 62.00 85.50 103.00 120.50 141.15 277.95),
  (PyKey.num 33, zrow 42.50 46.00 51.30 63.40 87.55 105.00 122.40 143.40 282.50),
  (PyKey.num 34, zrow 43.40 46.95 52.35 64.75 89.45 106.95 124.40 145.70 287.15),
  (PyKey.num 35, zrow 44.20 47.90 53.35 66.15 91.45 108.90 126.35 147.90 291.55),
  (PyKey.num 36, zrow 45.05 48.75 54.40 67.45 93.40 110.80 128.15 150.15 296.10),
  (PyKey.num 37, zrow 45.85 49.65 55.40 68.85 95.30 112.60 129.90 152.35 300.55),
  (PyKey.num 38, zrow 46.65 50.45 56.25 70.15 97.15 114.40 131.60 154.60 305.10),
  (PyKey.num 39, zrow 47.45 51.35 57.25 71.40 99.10 116.45 133.80 156.80 309.55),
  (PyKey.num 40, zrow 48.20 52.25 58.20 72.70 100.85 118.40 135.90 159.00 314.00),
  (PyKey.num 41, zrow 48.95 53.05 59.15 73.95 102.75 120.35 137.95 161.15 318.35),
  (PyKey.num 42, zrow 49.75 53.80 60.00 75.15 104.45 122.10 139.75 163.30 322.70),
  (PyKey.num 43, zrow 50.45 54.65 60.90 76.35 106.25 123.95 141.60 165.40 326.90),
  (PyKey.num 44, zrow 51.25 55.45 61.70 77.50 108.00 125.70 143.35 167.55 331.25),
  (PyKey.num 45, zrow 51.95 56.15 62.60 78.70 109.70 127.40 145.10 169.65 335.50),
  (PyKey.num 46, zrow 52.65 56.95 63.40 79.85 111.35 129.10 146.85 171.80 339.85),
  (PyKey.num 47, zrow 53.35 57.75 64.20 80.95 113.05 130.85 148.65 173.90 344.10),
  (PyKey.num 48, zrow 54.00 58.45 65.00 82.00 114.70 132.55 150.35 176.00 348.35),
  (PyKey.num 49, zrow 54.70 59.15 65.80 83.15 116.30 134.20 152.10 178.05 352.45),
  (PyKey.num 50, zrow 55.40 59.85 66.55 84.20 117.85 135.90 153.95 180.10 356.60),
  (PyKey.num 51, zrow 56.05 60.55 67.20 85.20 119.45 137.65 155.85 182.15 360.75),
  (PyKey.num 52, zrow 56.75 61.25 67.95 86.25 121.00 139.40 157.75 184.25 365.00),
  (PyKey.num 53, zrow 57.30 61.80 68.60 87.25 122.45 141.10 159.75 186.50 369.55),
  (PyKey.num 54, zrow 57.95 62.55 69.30 88.15 123.90 142.80 161.70 188.75 374.10),
  (PyKey.num 55, zrow 58.55 63.15 70.00 89.15 125.40 144.55 163.70 191.00 378.60),
  (PyKey.num 56, zrow 59.20 63.75 70.60 90.10 126.85 146.25 165.60 193.05 382.75),
  (PyKey.num 57, zrow 59.80 64.40 71.25 90.90 128.30 147.95 167.60 195.05 386.80),
  (PyKey.num 58, zrow 60.35 64.95 71.85 91.85 129.70 149.65 169.55 197.05 390.85),
  (PyKey.num 59, zrow 60.95 65.55 72.50 92.65 131.05 151.10 171.15 199.05 394.90),
  (PyKey.num 60, zrow 61.45 66.10 73.00 93.55 132.30 152.55 172.75 200.95 398.70),
  (PyKey.num 61, zrow 62.05 66.70 73.60 94.30 133.65 154.05 174.40 203.25 403.35),
  (PyKey.num 62, zrow 62.60 67.15 74.05 95.15 134.95 155.45 175.95 205.65 408.20),
  (PyKey.num 63, zrow 63.15 67.75 74.60 95.95 136.15 156.80 177.50 208.10 413.15),
  (PyKey.num 64, zrow 63.65 68.20 75.05 96.65 137.45 158.30 179.10 210.45 417.90),
  (PyKey.num 65, zrow 64.10 68.75 75.60 97.35 138.65 159.65 180.65 212.90 422.85),
  (PyKey.num 66, zrow 64.65 69.20 76.00 98.10 139.80 161.00 182.20 215.25 427.60),
  (PyKey.num 67, zrow 65.10 69.65 76.45 98.75 140.95 162.35 183.75 217.60 432.35),
  (PyKey.num 68, zrow 65.65 70.15 76.85 99.45 142.10 163.70 185.30 219.80 436.80),
  (PyKey.num 69, zrow 66.05 70.55 77.30 100.05 143.20 165.00 186.75 222.00 441.25),
  (PyKey.num 70, zrow 66.55 71.00 77.65 100.70 144.35 166.30 188.30 224.05 445.35)
]

def USPS_PRIORITY_MAIL_EXPRESS : List (PyKey × List (Nat × ℚ)) := [
  (PyKey.str "4_oz", zrow 32.50 32.75 32.85 35.20 40.80 43.70 46.50 49.80 65.55),
  (PyKey.str "8_oz", zrow 32.50 32.75 32.85 35.20 40.80 43.70 46.50 49.80 65.55),
  (PyKey.str "12_oz", zrow 33.05 33.80 35.55 40.20 48.35 52.15 55.30 58.50 77.30),
  (PyKey.str "15_999_oz", zrow 33.05 33.80 35.55 40.20 48.35 52.15 55.30 58.50 77.30),
  (PyKey.num 1, zrow 33.05 33.80 35.55 40.20 48.35 52.15 55.30 58.50 77.30),
  (PyKey.num 2, zrow 33.55 34.85 38.35 45.25 55.85 60.60 64.05 67.20 89.00),
  (PyKey.num 3, zrow 34.05 35.95 41.10 50.25 63.45 69.15 72.90 75.90 100.65),
  (PyKey.num 4, zrow 35.50 37.85 44.80 56.25 73.85 80.45 84.50 87.45 115.20),
  (PyKey.num 5, zrow 36.00 38.95 47.50 61.25 81.35 88.90 93.35 96.20 126.95),
  (PyKey.num 6, zrow 39.40 42.65 52.00 67.75 88.85 96.65 101.70 104.80 138.50),
  (PyKey.num 7, zrow 42.85 46.30 56.45 74.25 96.35 104.40 110.05 113.35 150.10),
  (PyKey.num 8, zrow 46.25 50.05 60.95 80.75 103.80 112.15 118.40 122.00 161.65),
  (PyKey.num 9, zrow 49.75 53.70 65.35 87.25 111.30 119.85 126.80 130.55 173.25),
  (PyKey.num 10, zrow 53.15 57.40 69.85 93.75 118.80 127.60 135.15 139.15 184.85),
  (PyKey.num 11, zrow 57.50 62.40 76.80 100.80 128.00 136.60 144.35 148.65 196.20),
  (PyKey.num 12, zrow 59.95 65.50 81.85 105.95 133.05 141.40 149.45 154.00 203.40),
  (PyKey.num 13, zrow 62.40 68.65 87.00 111.05 138.10 146.25 154.50 159.30 210.55),
  (PyKey.num 14, zrow 64.90 71.75 92.05 116.25 143.15 151.05 159.55 164.70 217.75),
  (PyKey.num 15, zrow 67.30 74.85 97.10 121.40 148.25 155.90 164.65 170.00 224.95),
  (PyKey.num 16, zrow 69.80 77.95 102.15 126.55 153.35 160.70 169.75 175.30 232.15),
  (PyKey.num 17, zrow 72.25 81.05 107.20 131.70 158.40 165.55 174.80 180.65 239.35),
  (PyKey.num 18, zrow 74.75 84.20 112.30 136.80 163.45 170.35 179.85 186.00 246.55),
  (PyKey.num 19, zrow 77.15 87.30 117.35 142.00 168.50 175.20 184.95 191.35 253.75),
  (PyKey.num 20, zrow 79.65 90.40 122.45 147.15 173.55 180.00 190.00 196.65 260.95),
  (PyKey.num 21, zrow 82.55 94.00 128.10 153.15 180.20 186.70 197.00 203.95 270.75),
  (PyKey.num 22, zrow 85.50 97.55 133.80 159.15 186.90 193.45 203.95 211.15 280.50),
  (PyKey.num 23, zrow 88.35 101.15 139.45 165.15 193.55 200.20 210.90 218.45 290.30),
  (PyKey.num 24, zrow 91.25 104.80 145.15 171.15 200.25 206.95 217.90 225.65 300.15),
  (PyKey.num 25, zrow 94.20 108.40 150.80 177.15 206.90 213.65 224.85 232.95 309.90),
  (PyKey.num 26, zrow 102.95 117.80 162.35 189.00 220.60 227.35 238.80 247.15 326.70),
  (PyKey.num 27, zrow 105.85 121.40 168.00 195.00 227.25 234.10 245.75 254.45 336.50),
  (PyKey.num 28, zrow 108.75 125.00 173.75 201.05 233.90 240.80 252.75 261.65 346.25),
  (PyKey.num 29, zrow 111.65 128.65 179.40 207.00 240.55 247.60 259.70 268.95 356.05),
  (PyKey.num 30, zrow 114.55 132.20 185.10 213.00 247.25 254.30 266.65 276.15 365.85),
  (PyKey.num 31, zrow 117.50 135.80 190.75 219.05 253.95 261.00 273.65 283.45 375.60),
  (PyKey.num 32, zrow 120.40 139.40 196.45 225.05 260.60 267.75 280.60 290.65 385.40),
  (PyKey.num 33, zrow 123.25 143.05 202.10 231.00 267.25 274.45 287.55 297.95 395.20),
  (PyKey.num 34, zrow 126.20 146.60 207.80 237.05 273.95 281.20 294.55 305.15 404.95),
  (PyKey.num 35, zrow 129.10 150.20 213.45 243.05 280.60 287.95 301.50 312.45 414.75),
  (PyKey.num 36, zrow 132.20 153.90 218.95 249.10 287.65 295.40 309.25 320.40 425.55),
  (PyKey.num 37, zrow 134.90 157.15 224.05 255.40 294.60 302.85 316.95 328.50 436.15),
  (PyKey.num 38, zrow 137.75 160.75 229.55 261.60 301.55 309.90 324.30 336.20 446.70),
  (PyKey.num 39, zrow 140.95 164.45 234.90 267.95 308.45 316.70 331.45 344.05 457.35),
  (PyKey.num 40, zrow 143.75 167.80 240.00 274.25 315.55 324.10 338.90 352.15 468.10),
  (PyKey.num 41, zrow 146.75 171.60 246.10 282.00 324.15 333.45 348.65 362.05 480.80),
  (PyKey.num 42, zrow 149.20 174.75 251.50 288.30 330.90 340.95 356.25 369.85 491.50),
  (PyKey.num 43, zrow 152.40 178.50 256.75 294.25 337.90 348.15 363.70 377.80 502.30),
  (PyKey.num 44, zrow 155.05 181.85 262.20 300.65 344.85 355.15 371.15 385.80 512.70),
  (PyKey.num 45, zrow 157.85 185.30 267.50 306.75 351.55 362.45 378.70 393.85 523.65),
  (PyKey.num 46, zrow 160.70 188.65 272.65 313.35 358.70 369.70 385.95 401.65 534.20),
  (PyKey.num 47, zrow 163.90 192.40 278.00 319.40 365.55 377.10 393.65 409.70 544.90),
  (PyKey.num 48, zrow 166.45 195.75 283.60 325.55 372.30 384.30 401.10 417.65 555.65),
  (PyKey.num 49, zrow 169.35 199.25 288.65 331.95 379.20 391.85 408.80 425.50 566.40),
  (PyKey.num 50, zrow 172.70 203.10 294.15 338.25 386.25 398.85 416.00 433.50 576.95),
  (PyKey.num 51, zrow 175.55 206.60 299.60 344.40 393.05 406.00 423.40 440.40 586.25),
  (PyKey.num 52, zrow 178.40 209.90 304.50 350.55 399.80 413.55 431.00 449.65 598.45),
  (PyKey.num 53, zrow 181.15 213.40 310.10 356.95 406.65 420.85 438.55 457.55 609.20),
  (PyKey.num 54, zrow 184.20 217.10 315.50 363.00 413.30 428.30 446.10 465.35 619.75),
  (PyKey.num 55, zrow 187.65 221.40 322.50 369.45 420.35 435.35 453.35 473.30 630.35),
  (PyKey.num 56, zrow 192.10 226.35 329.20 377.65 429.40 445.00 463.55 483.90 646.60),
  (PyKey.num 57, zrow 195.25 230.10 334.55 383.95 436.45 452.30 470.85 491.90 657.20),
  (PyKey.num 58, zrow 198.40 233.75 339.70 390.25 443.20 459.70 478.45 499.85 667.95),
  (PyKey.num 59, zrow 201.00 237.00 345.05 396.35 449.95 467.20 485.95 507.90 678.70),
  (PyKey.num 60, zrow 203.60 240.35 350.50 402.80 456.85 474.45 493.40 515.85 689.55),
  (PyKey.num 61, zrow 206.30 243.70 355.90 409.35 464.15 481.75 500.90 523.80 700.30),
  (PyKey.num 62, zrow 209.45 247.35 361.15 415.55 470.60 488.95 508.30 532.00 711.20),
  (PyKey.num 63, zrow 212.65 251.15 366.45 421.80 477.50 496.50 515.90 540.00 722.05),
  (PyKey.num 64, zrow 215.50 254.55 371.70 427.95 484.20 503.90 523.50 548.00 732.95),
  (PyKey.num 65, zrow 218.95 258.50 377.10 434.20 491.00 511.20 530.60 555.95 743.45),
  (PyKey.num 66, zrow 222.85 262.80 382.60 440.65 497.95 518.55 538.10 563.90 753.95),
  (PyKey.num 67, zrow 225.40 266.00 387.80 447.05 504.85 525.50 545.25 571.85 765.05),
  (PyKey.num 68, zrow 228.15 269.40 393.15 453.30 511.45 533.15 553.10 580.15 776.05),
  (PyKey.num 69, zrow 231.65 273.35 398.60 459.50 518.35 540.30 560.35 587.75 786.35),
  (PyKey.num 70, zrow 235.60 277.70 404.05 465.80 525.15 547.65 567.75 595.80 797.20)
]

/-- `AVAILABLE_OZ = [4, 8, 12, 15.999]` -/
def AVAILABLE_OZ : List ℚ := [4, 8, 12, 15.999]

/-- `OZ_KEY_MAP = {4: "4_oz", 8: "8_oz", 12: "12_oz", 15.999: "15_999_oz"}` -/
def OZ_KEY_MAP : List (ℚ × String) :=
  [(4, "4_oz"), (8, "8_oz"), (12, "12_oz"), (15.999, "15_999_oz")]

/-- `OZ_KEY_MAP.get(oz)` (used only in statements relating ounce tiers to their
string keys; the active source code never consults `OZ_KEY_MAP`). -/
def ozKeyName (q : ℚ) : String :=
  ((OZ_KEY_MAP.find? (fun e => e.1 = q)).map (·.2)).getD ""

/-- `get_usps_zone_from_distance` from src/api/quote.py. -/
def get_usps_zone_from_distance (distance_miles : ℚ) : Nat :=
  if distance_miles ≤ 50 then 1
  else if distance_miles ≤ 150 then 2
  else if distance_miles ≤ 300 then 3
  else if distance_miles ≤ 600 then 4
  else if distance_miles ≤ 1000 then 5
  else if distance_miles ≤ 1400 then 6
  else if distance_miles ≤ 1800 then 7
  else if distance_miles ≤ 2000 then 8
  else 9

/-- `get_weight_bracket` from src/api/quote.py.  The `for oz in AVAILABLE_OZ`
loop is unrolled over the four-element list; when `weight_oz ≤ 15.999` the loop
always returns (15.999 is the last tier), otherwise control falls through to
the pound branch. -/
def get_weight_bracket (weight_lbs : ℚ) : ℚ × Bool :=
  let weight_oz := weight_lbs * 16
  if weight_oz ≤ 15.999 then
    if weight_oz ≤ 4 then (4, true)
    else if weight_oz ≤ 8 then (8, true)
    else if weight_oz ≤ 12 then (12, true)
    else (15.999, true)
  else
    let rounded_lbs : Int := min ⌈weight_lbs⌉ 70
    ((rounded_lbs : ℚ), false)

/-- The functions of Python's `math` module used by the Haversine computation,
plus the `π/180` factor hidden in `math.radians`.  They are external library
code, so the embedding takes them as parameters. -/
structure MathFns where
  sin : ℚ → ℚ
  cos : ℚ → ℚ
  asin : ℚ → ℚ
  sqrt : ℚ → ℚ
  degToRad : ℚ

/-- A concrete instance used to evaluate code paths that never reach the
Haversine formula (e.g. the missing-ZIP fallback). -/
def trivialMath : MathFns :=
  { sin := fun _ => 0, cos := fun _ => 0, asin := fun _ => 0,
    sqrt := fun _ => 0, degToRad := 0 }

/-- The `_zip_cache` loaded from uszips.csv (external data): ZIP ↦ (lat, lng). -/
def ZipCache : Type := List (String × (ℚ × ℚ))

def zipLookup (c : ZipCache) (z : String) : Option (ℚ × ℚ) :=
  (List.find? (fun e => e.1 = z) c).map (·.2)

/-- The Haversine body of `calculate_distance_between_zips` (the code after
both cache lookups succeed), with `math.radians x = x * degToRad`. -/
def haversineMiles (M : MathFns) (lat1 lon1 lat2 lon2 : ℚ) : ℚ :=
  let dlat := (lat2 - lat1) * M.degToRad
  let dlon := (lon2 - lon1) * M.degToRad
  let a := M.sin (dlat / 2) ^ 2 +
    M.cos (lat1 * M.degToRad) * M.cos (lat2 * M.degToRad) * M.sin (dlon / 2) ^ 2
  let c := 2 * M.asin (M.sqrt a)
  3959 * c

/-- `calculate_distance_between_zips` from src/api/quote.py: 500-mile fallback
when either ZIP is absent from the cache, otherwise Haversine rounded to one
decimal. -/
def calculate_distance_between_zips (M : MathFns) (cache : ZipCache)
    (origin_zip destination_zip : String) : ℚ :=
  match zipLookup cache origin_zip, zipLookup cache destination_zip with
  | some o, some d => pyRound (haversineMiles M o.1 o.2 d.1 d.2) 1
  | _, _ => 500

/-- `GRAMS_PER_LB = 453.59237` -/
def GRAMS_PER_LB : ℚ := 453.59237

/-- `RATE_TABLES` from src/api/quote.py. -/
def RATE_TABLES : List (String × List (PyKey × List (Nat × ℚ))) :=
  [("ground_advantage", USPS_GROUND_ADVANTAGE_RETAIL),
   ("priority_mail", USPS_PRIORITY_MAIL_RETAIL),
   ("priority_express", USPS_PRIORITY_MAIL_EXPRESS)]

def rateTableFor (service_type : String) : Option (List (PyKey × List (Nat × ℚ))) :=
  (RATE_TABLES.find? (fun e => e.1 = service_type)).map (·.2)

/-- `calculate_usps_shipping` from src/api/quote.py (the active definition,
lines 552-568).  The origin ZIP read from the `ZIP_CODE` environment variable
is a parameter.  `none` models a raised `KeyError` (unknown service type, a
bracket key absent from the table, or a zone absent from the row). -/
def calculate_usps_shipping (M : MathFns) (cache : ZipCache) (origin_zip : String)
    (dest_zip : String) (weight_kg : ℚ) (service_type : String) : Option ℚ :=
  let weight_grams := weight_kg * 1000
  let weight_lbs := pyRound (weight_grams / GRAMS_PER_LB) 2
  let bracket := (get_weight_bracket weight_lbs).1
  let distance_miles := calculate_distance_between_zips M cache origin_zip dest_zip
  let zone := get_usps_zone_from_distance distance_miles
  match rateTableFor service_type with
  | none => none
  | some table =>
    match pyGet table (PyKey.num bracket) with
    | none => none
    | some r => zoneGet r zone

def sGet (d : List (String × ℚ)) (k : String) : Option ℚ :=
  (d.find? (fun e => e.1 = k)).map (·.2)

/-- `filament_prices` from src/api/quote.py. -/
def filament_prices : List (String × ℚ) :=
  [("PLA Basic", 19.99), ("PLA Matte", 19.99), ("PETG HF", 19.99), ("PETG Basic", 19.99)]

/-- `material_densities` from src/api/quote.py (note: no "PETG Basic" entry). -/
def material_densities : List (String × ℚ) :=
  [("PLA Basic", 1.24), ("PLA Matte", 1.24), ("PETG HF", 1.27)]

/-- `MINIMUM_WEIGHT_G = 0.1` -/
def MINIMUM_WEIGHT_G : ℚ := 0.1

/-- `base_cost = 20` -/
def base_cost : ℚ := 20

/-- `calculate_total_with_tax` from src/api/quote.py.  `get_state_from_zip`
(module src/api/zip_to_state.py, not part of the analysed sources) is a
parameter; Python's `if state:` is falsy for both `None` and the empty
string.  Returns `(total_with_tax, sales_tax)`. -/
def calculate_total_with_tax (zip_code : String) (total_cost : ℚ)
    (tax_rates : List (String × ℚ)) (get_state_from_zip : String → Option String) :
    ℚ × ℚ :=
  match get_state_from_zip zip_code with
  | some state =>
    if state = "" then (total_cost, 0)
    else
      let sales_tax_rate := (sGet tax_rates state).getD 0
      let sales_tax := sales_tax_rate * total_cost
      (total_cost + sales_tax, sales_tax)
  | none => (total_cost, 0)

/-- The body of a `QuoteRequest` (src/api/quote.py): the fields the `quote`
endpoint reads. -/
structure QuoteRequest where
  zip_code : String
  filament_type : String
  quantity : Int := 1
  rush_order : Bool := false
  use_usps_connect_local : Bool := false
  service_type : String := "ground_advantage"
  volume : ℚ := 0
  weight : ℚ := 0
deriving DecidableEq, Repr

/-- The numeric content of a `QuoteResponse`; the endpoint renders each field
as a `$%.2f` string, which is presentation only. -/
structure QuoteNums where
  total_cost_with_tax : ℚ
  sales_tax : ℚ
  base_cost : ℚ
  material_cost : ℚ
  shipping_cost : ℚ
  rush_order_surcharge : ℚ
deriving DecidableEq, Repr

/-- An `HTTPException`: status code and detail. -/
structure HErr where
  status : Nat
  detail : String
deriving DecidableEq, Repr

/-- The `quote` endpoint (src/api/quote.py, lines 705-767).  Any exception
escaping the body — in particular the `KeyError` raised inside
`calculate_usps_shipping` — is caught by the generic handler and surfaces as a
500; the explicit input checks surface as 400s. -/
def quote (M : MathFns) (cache : ZipCache) (get_state_from_zip : String → Option String)
    (tax_rates : List (String × ℚ)) (origin_zip : String) (r : QuoteRequest) :
    Except HErr QuoteNums :=
  if r.zip_code = "" ∨ r.filament_type = "" then
    .error ⟨400, "Missing required fields"⟩
  else if ¬ ((sGet material_densities r.filament_type).isSome ∧
             (sGet filament_prices r.filament_type).isSome) then
    .error ⟨400, "Invalid filament type"⟩
  else
    let density := (sGet material_densities r.filament_type).getD 0
    let total_weight_g :=
      if r.weight > 0 then r.weight else max (r.volume * density) MINIMUM_WEIGHT_G
    let total_weight_kg := total_weight_g / 1000
    let total_material_cost :=
      total_weight_kg * (sGet filament_prices r.filament_type).getD 0 * (r.quantity : ℚ)
    let rush_order_surcharge : ℚ := if r.rush_order then 20 else 0
    let total_weight_with_packaging := (total_weight_g * (r.quantity : ℚ)) * 1.15 / 1000
    match calculate_usps_shipping M cache origin_zip r.zip_code
        total_weight_with_packaging r.service_type with
    | none => .error ⟨500, "KeyError"⟩
    | some shipping_cost =>
      let total_cost_before_tax :=
        base_cost + total_material_cost + shipping_cost + rush_order_surcharge
      let p := calculate_total_with_tax r.zip_code total_cost_before_tax
        tax_rates get_state_from_zip
      .ok ⟨p.1, p.2, base_cost, total_material_cost, shipping_cost, rush_order_surcharge⟩

/-- `load_sales_tax_rates` from src/api/sales_tax_rates.py.  The CSV parsing
(`strip('%')`, `float`, footnote-marker removal from state names) is I/O over
external data; its semantic step is dividing the percentage figure by 100 to
obtain a decimal fraction.  Input rows are (cleaned state name, percent
figure). -/
def load_sales_tax_rates (rows : List (String × ℚ)) : List (String × ℚ) :=
  rows.map (fun row => (row.1, row.2 / 100))

/-- The sales-tax recalculation of the `checkout` endpoint
(src/api/quote.py, lines 879-884): an approximate 7% figure, overwritten with
`sales_tax_rates[state] / 100` whenever the state resolves and is in the
table.  Returns the tax in integer cents. -/
def checkout_sales_tax_cents (tax_rates : List (String × ℚ))
    (get_state_from_zip : String → Option String) (request_state : Option String)
    (zip_code : String) (subtotal_cents : Int) : Int :=
  let approx := pyInt ((subtotal_cents : ℚ) * (if request_state ≠ some "DE" then 0.07 else 0))
  match get_state_from_zip zip_code with
  | some state =>
    if state = "" then approx
    else
      match sGet tax_rates state with
      | some r => pyInt ((subtotal_cents : ℚ) * (r / 100))
      | none => approx
  | none => approx

/-- Render a rational that is an exact decimal fraction the way Python renders
the corresponding int/float constant (used only inside result strings). -/
def decStr (q : ℚ) : String :=
  let k := ((List.range 13).find? (fun j => (q * 10 ^ j).den = 1)).getD 0
  if k = 0 then toString q.num
  else
    let s := toString (q * 10 ^ k).num.natAbs
    let s := String.mk (List.replicate (k + 1 - s.length) '0') ++ s
    (if q < 0 then "-" else "") ++ s.take (s.length - k) ++ "." ++ s.drop (s.length - k)

/-- Python `f"{x:.1f}"`: fixed one-decimal rendering, ties to even. -/
def fmtF1 (q : ℚ) : String :=
  let m := roundHalfEvenZ (q * 10)
  (if m < 0 then "-" else "") ++ toString (m.natAbs / 10) ++ "." ++ toString (m.natAbs % 10)

/-- Python `sub in s` for strings. -/
def pyInStr (sub s : String) : Bool :=
  (s.splitOn sub).length ≠ 1

/-- `PackingResult` dataclass from src/api/packing_optimizer.py.  The
`estimated_package_dimensions` dict is an association list. -/
structure PackingResult where
  strategy : String
  recommendation : String
  estimated_package_dimensions : List (String × ℚ)
  estimated_total_weight_lbs : ℚ
  estimated_cost_per_box : ℚ
  number_of_packages : Int
  notes : List String
deriving DecidableEq, Repr

/-- One entry of an `optimal_boxes` list in `SHIPPING_METHOD_SPECS`. -/
structure BoxSpec where
  name : String
  length : ℚ
  width : ℚ
  height : ℚ
  max_weight_lbs : ℚ
deriving DecidableEq, Repr

/-- One value of the `SHIPPING_METHOD_SPECS` dict. -/
structure MethodSpec where
  max_length_inches : ℚ
  max_girth_inches : ℚ
  max_weight_lbs : ℚ
  optimal_boxes : List BoxSpec
deriving DecidableEq, Repr

/-- `SHIPPING_METHOD_SPECS` from src/api/packing_optimizer.py. -/
def SHIPPING_METHOD_SPECS : List (String × MethodSpec) :=
  [("USPS Ground Advantage",
    ⟨130, 130, 70,
     [⟨"Small Priority Box", 5.5, 8.625, 1.625, 70⟩,
      ⟨"Medium Flat-Rate Box", 11, 8.5, 5.5, 70⟩,
      ⟨"Large Priority Box", 12, 12, 8, 70⟩]⟩),
   ("USPS Priority Mail",
    ⟨130, 130, 70,
     [⟨"Small Priority Box", 5.5, 8.625, 1.625, 70⟩,
      ⟨"Medium Flat-Rate Box", 11, 8.5, 5.5, 70⟩,
      ⟨"Large Priority Box", 12, 12, 8, 70⟩]⟩),
   ("USPS Priority Mail Express",
    ⟨130, 130, 70,
     [⟨"Small Priority Box", 5.5, 8.625, 1.625, 70⟩,
      ⟨"Medium Flat-Rate Box", 11, 8.5, 5.5, 70⟩,
      ⟨"Large Priority Box", 12, 12, 8, 70⟩]⟩),
   ("UPS Ground",
    ⟨165, 300, 150,
     [⟨"Small Box", 12, 12, 8, 150⟩,
      ⟨"Medium Box", 18, 12, 10, 150⟩,
      ⟨"Large Box", 24, 18, 12, 150⟩,
      ⟨"Extra Large Box", 30, 24, 18, 150⟩]⟩),
   ("UPS 2nd Day Air",
    ⟨165, 300, 150,
     [⟨"Small Box", 12, 12, 8, 150⟩,
      ⟨"Medium Box", 18, 12, 10, 150⟩,
      ⟨"Large Box", 24, 18, 12, 150⟩]⟩),
   ("UPS Next Day Air",
    ⟨165, 300, 150,
     [⟨"Small Box", 12, 12, 8, 150⟩,
      ⟨"Medium Box", 18, 12, 10, 150⟩,
      ⟨"Large Box", 24, 18, 12, 150⟩]⟩)]

def methodSpecFor (m : String) : Option MethodSpec :=
  (SHIPPING_METHOD_SPECS.find? (fun e => e.1 = m)).map (·.2)

/-- `PADDING_MM = 10` -/
def PADDING_MM : ℚ := 10

/-- `mm_to_inches` from src/api/packing_optimizer.py. -/
def mm_to_inches (mm : ℚ) : ℚ := mm / 25.4

/-- `calculate_girth` from src/api/packing_optimizer.py. -/
def calculate_girth (width_inches height_inches : ℚ) : ℚ :=
  2 * (width_inches + height_inches)

/-- Python truthiness of an `Optional[float]`: falsy iff `None` or `0`. -/
def truthyQ : Option ℚ → Bool
  | none => false
  | some x => x ≠ 0

/-- One iteration of the orientation loop in `fits_in_box`: updates the
`(best_arrangement, min_waste)` accumulator (`none` = `min_waste == inf`);
the outer `none` models a `ZeroDivisionError` from `int(box_dim / orient_dim)`. -/
def fitsStep (quantity : Int) (bl bw bh : ℚ)
    (best : Option ((Int × Int × Int) × ℚ)) (o : ℚ × ℚ × ℚ) :
    Option (Option ((Int × Int × Int) × ℚ)) := do
  let ql ← pyDiv bl o.1
  let qw ← pyDiv bw o.2.1
  let qh ← pyDiv bh o.2.2
  let items_along_l := pyInt ql
  let items_along_w := pyInt qw
  let items_along_h := pyInt qh
  let total_items := items_along_l * items_along_w * items_along_h
  if total_items ≥ quantity then
    let used_volume := (o.1 * items_along_l) * (o.2.1 * items_along_w) * (o.2.2 * items_along_h)
    let waste := bl * bw * bh - used_volume
    match best with
    | none => pure (some ((items_along_l, items_along_w, items_along_h), waste))
    | some b =>
      if waste < b.2 then pure (some ((items_along_l, items_along_w, items_along_h), waste))
      else pure best
  else
    pure best

/-- `fits_in_box` from src/api/packing_optimizer.py.  The outer `none` models
a raised exception; the normal result is `(fits, arrangement)`. -/
def fits_in_box (model_length_mm model_width_mm model_height_mm : Option ℚ)
    (quantity : Int) (box_length box_width box_height : ℚ) :
    Option (Bool × String) :=
  if ¬ (truthyQ model_length_mm ∧ truthyQ model_width_mm ∧ truthyQ model_height_mm) then
    some (false, "Missing dimension data")
  else
    let item_l := mm_to_inches (model_length_mm.getD 0) + 2 * mm_to_inches PADDING_MM
    let item_w := mm_to_inches (model_width_mm.getD 0) + 2 * mm_to_inches PADDING_MM
    let item_h := mm_to_inches (model_height_mm.getD 0) + 2 * mm_to_inches PADDING_MM
    let orientations : List (ℚ × ℚ × ℚ) :=
      [(item_l, item_w, item_h), (item_l, item_h, item_w),
       (item_w, item_l, item_h), (item_w, item_h, item_l),
       (item_h, item_l, item_w), (item_h, item_w, item_l)]
    match orientations.foldlM (fitsStep quantity box_length box_width box_height) none with
    | none => none
    | some (some (arr, _)) =>
      some (true, s!"{arr.1}×{arr.2.1}×{arr.2.2} grid")
    | some none => some (false, "Does not fit")

/-- The box loop of `calculate_packing`: returns the first box for which
`fits_in_box` reports a fit (with its arrangement string); `none` propagates
an exception out of `fits_in_box`. -/
def firstFittingBox (l w h : Option ℚ) (qty : Int) :
    List BoxSpec → Option (Option (BoxSpec × String))
  | [] => some none
  | box :: rest => do
    let fa ← fits_in_box l w h qty box.length box.width box.height
    if fa.1 then pure (some (box, fa.2)) else firstFittingBox l w h qty rest

/-- `_generic_packing_result` from src/api/packing_optimizer.py. -/
def generic_packing_result (quantity : Int) (weight_per_unit_g : ℚ)
    (_shipping_method : String) : PackingResult :=
  let weight_per_unit_lbs := weight_per_unit_g / 453.592
  let total_weight_lbs := weight_per_unit_lbs * (quantity : ℚ)
  { strategy := "Generic - Dimensions Not Available"
    recommendation :=
      s!"Dimension data not available. Recommend packing {quantity} items " ++
      "with adequate protective padding. Use the smallest available box that accommodates all items."
    estimated_package_dimensions :=
      [("length_inches", 0), ("width_inches", 0), ("height_inches", 0)]
    estimated_total_weight_lbs := total_weight_lbs
    estimated_cost_per_box := 0
    number_of_packages := 1
    notes :=
      ["To optimize packing, model dimensions (length, width, height) should be captured during quote creation",
       s!"Estimated total weight: {fmtF1 total_weight_lbs} lbs"] }

/-- `_default_packing_result` from src/api/packing_optimizer.py. -/
def default_packing_result (shipping_method : String) : PackingResult :=
  { strategy := "Custom Packaging"
    recommendation :=
      s!"Unknown shipping method: {shipping_method}. Use standard boxes with adequate protective packaging."
    estimated_package_dimensions :=
      [("length_inches", 0), ("width_inches", 0), ("height_inches", 0)]
    estimated_total_weight_lbs := 0
    estimated_cost_per_box := 0
    number_of_packages := 1
    notes := ["Contact support for specific packing recommendations for this shipping method"] }

/-- `calculate_packing` from src/api/packing_optimizer.py.  `none` models a
raised exception (in particular `ZeroDivisionError` from
`math.ceil(quantity / items_packed)` when `items_packed == 0`). -/
def calculate_packing (model_length_mm model_width_mm model_height_mm : Option ℚ)
    (quantity : Int) (weight_per_unit_g : ℚ) (shipping_method : String)
    (packaging_padding_g : ℚ := 50) : Option PackingResult := do
  match methodSpecFor shipping_method with
  | none => pure (default_packing_result shipping_method)
  | some specs =>
    let boxes := specs.optimal_boxes
    let max_weight_lbs := specs.max_weight_lbs
    if ¬ (truthyQ model_length_mm ∧ truthyQ model_width_mm ∧ truthyQ model_height_mm) then
      pure (generic_packing_result quantity weight_per_unit_g shipping_method)
    else
      let weight_per_unit_lbs := (weight_per_unit_g + packaging_padding_g) / 453.592
      let max_items_per_weight :=
        if weight_per_unit_lbs > 0 then pyInt (max_weight_lbs / weight_per_unit_lbs)
        else quantity
      let found ← firstFittingBox model_length_mm model_width_mm model_height_mm
        (min quantity max_items_per_weight) boxes
      let (best_box, best_arrangement, total_packages) ←
        match found with
        | some (box, arrangement) =>
          let items_packed := min quantity max_items_per_weight
          if items_packed < quantity then do
            let q ← pyDiv (quantity : ℚ) (items_packed : ℚ)
            pure (box, arrangement, (⌈q⌉ : Int))
          else
            pure (box, arrangement, 1)
        | none => do
          match boxes.getLast? with
          | none => none
          | some box => do
            let q ← pyDiv (quantity : ℚ) (max_items_per_weight : ℚ)
            pure (box, s!"Stacked (qty: {quantity})", (⌈q⌉ : Int))
      let weight_per_unit_lbs := (weight_per_unit_g + packaging_padding_g) / 453.592
      let package_length := best_box.length + 0.5
      let package_width := best_box.width + 0.5
      let package_height := best_box.height + 0.5
      let ipq ← pyDiv (quantity : ℚ) (total_packages : ℚ)
      let items_per_package := max 1 (pyInt ipq)
      let weight_per_package_lbs := (items_per_package : ℚ) * weight_per_unit_lbs
      let strategy := best_box.name
      let recommendation ←
        if total_packages = 1 then
          pure (s!"Pack all {quantity} items in a single {best_box.name} " ++
            s!"({decStr best_box.length}\" × {decStr best_box.width}\" × {decStr best_box.height}\")")
        else do
          if total_packages = 0 then none
          else
            let items_per_pkg := max 1 (Int.fdiv quantity total_packages)
            pure (s!"Split across {total_packages} boxes ({best_box.name}). " ++
              s!"Pack ~{items_per_pkg} items per box with protective padding.")
      let notes :=
        [s!"Arrangement: {best_arrangement}",
         s!"Weight per package: ~{fmtF1 weight_per_package_lbs} lbs"]
      let notes :=
        if pyInStr "USPS" shipping_method then
          notes ++ ["USPS flat-rate boxes have fixed pricing regardless of weight"] ++
            (if total_packages > 1 then ["Each package will be charged separately"] else [])
        else if pyInStr "UPS" shipping_method then
          let girth := calculate_girth package_width package_height
          let length_plus_girth := package_length + girth
          notes ++
            [s!"UPS Dimensional Weight Formula: {fmtF1 package_length}\" + {fmtF1 girth}\" girth = {fmtF1 length_plus_girth}\""] ++
            (if length_plus_girth > 300 then
              ["⚠️ WARNING: Package may be oversized for standard shipping"] else [])
        else notes
      pure
        { strategy := strategy
          recommendation := recommendation
          estimated_package_dimensions :=
            [("length_inches", package_length), ("width_inches", package_width),
             ("height_inches", package_height)]
          estimated_total_weight_lbs := weight_per_package_lbs * (total_packages : ℚ)
          estimated_cost_per_box := 0
          number_of_packages := total_packages
          notes := notes }

/-! ## Helper lemmas -/

lemma zone_bounds (d : ℚ) :
    1 ≤ get_usps_zone_from_distance d ∧ get_usps_zone_from_distance d ≤ 9 := by
  unfold get_usps_zone_from_distance
  split_ifs <;> omega

set_option maxHeartbeats 2000000 in
lemma zone_mono {d e : ℚ} (h : d ≤ e) :
    get_usps_zone_from_distance d ≤ get_usps_zone_from_distance e := by
  unfold get_usps_zone_from_distance
  split_ifs <;> first | omega | linarith

lemma rateTableFor_cases {s : String} {t : List (PyKey × List (Nat × ℚ))}
    (h : rateTableFor s = some t) :
    t = USPS_GROUND_ADVANTAGE_RETAIL ∨ t = USPS_PRIORITY_MAIL_RETAIL ∨
      t = USPS_PRIORITY_MAIL_EXPRESS := by
  by_cases h1 : s = "ground_advantage"
  · subst h1
    have h0 : rateTableFor "ground_advantage" = some USPS_GROUND_ADVANTAGE_RETAIL := rfl
    rw [h0] at h
    exact Or.inl (Option.some.inj h).symm
  by_cases h2 : s = "priority_mail"
  · subst h2
    have h0 : rateTableFor "priority_mail" = some USPS_PRIORITY_MAIL_RETAIL := rfl
    rw [h0] at h
    exact Or.inr (Or.inl (Option.some.inj h).symm)
  by_cases h3 : s = "priority_express"
  · subst h3
    have h0 : rateTableFor "priority_express" = some USPS_PRIORITY_MAIL_EXPRESS := rfl
    rw [h0] at h
    exact Or.inr (Or.inr (Option.some.inj h).symm)
  · exfalso
    have h1' : ¬ ("ground_advantage" = s) := fun hh => h1 hh.symm
    have h2' : ¬ ("priority_mail" = s) := fun hh => h2 hh.symm
    have h3' : ¬ ("priority_express" = s) := fun hh => h3 hh.symm
    unfold rateTableFor RATE_TABLES at h
    simp [List.find?, h1', h2', h3'] at h

lemma haversineMiles_symm (M : MathFns) (hodd : ∀ x, M.sin (-x) = - M.sin x)
    (lat1 lon1 lat2 lon2 : ℚ) :
    haversineMiles M lat1 lon1 lat2 lon2 = haversineMiles M lat2 lon2 lat1 lon1 := by
  have hs : ∀ u : ℚ, M.sin (-u / 2) ^ 2 = M.sin (u / 2) ^ 2 := by
    intro u
    rw [neg_div, hodd]
    ring
  simp only [haversineMiles]
  rw [show (lat1 - lat2) * M.degToRad = -((lat2 - lat1) * M.degToRad) by ring,
      show (lon1 - lon2) * M.degToRad = -((lon2 - lon1) * M.degToRad) by ring,
      hs, hs, mul_comm (M.cos (lat2 * M.degToRad)) (M.cos (lat1 * M.degToRad))]

/-- A `MathFns` instance with an odd sine, usable to instantiate symmetry
statements on concrete inputs. -/
def oddMath : MathFns :=
  { sin := fun x => x, cos := fun _ => 1, asin := fun x => x,
    sqrt := fun _ => 0, degToRad := 1 }

/-! ## Claims -/

/-- Claim C1 (code bug, evaluation at the failing input): for a weight of
0.8 lbs (12.8 oz) `get_weight_bracket` returns the numeric bracket 15.999,
which is a key of none of the three rate tables (they key that row as the
string "15_999_oz"), so the lookup in `calculate_usps_shipping` raises
`KeyError` (modelled as `none`) — e.g. for a 0.4 kg package.  This refutes the
claim that every bracket in [0, 200] lbs resolves in every table. -/
theorem claim_C1_bracket_key_missing :
    get_weight_bracket 0.8 = (15.999, true) ∧
    pyGet USPS_GROUND_ADVANTAGE_RETAIL (PyKey.num 15.999) = none ∧
    pyGet USPS_PRIORITY_MAIL_RETAIL (PyKey.num 15.999) = none ∧
    pyGet USPS_PRIORITY_MAIL_EXPRESS (PyKey.num 15.999) = none ∧
    calculate_usps_shipping trivialMath [] "10001" "33179" 0.4 "ground_advantage" = none := by
  refine ⟨?_, ?_, ?_, ?_, ?_⟩ <;> with_unfolding_all rfl

set_option maxRecDepth 4000 in
/-- Claim C2 (code bug, evaluation at the failing input): a ground-advantage
(economy) quote with the local-pickup discount requested returns the
undiscounted table price — the quote for a 700 g item (bracket 2, zone 4 via
the ZIP fallback) has shipping cost $11.80 whether or not
`use_usps_connect_local` is set, and $11.80 ≠ 0.85 × $11.80, refuting the
claim that the economy tier price is multiplied by 0.85. -/
theorem claim_C2_discount_ignored :
    quote trivialMath [] (fun _ => none) [] "10001"
      { zip_code := "33179", filament_type := "PLA Basic", quantity := 1,
        rush_order := false, use_usps_connect_local := true,
        service_type := "ground_advantage", volume := 0, weight := 700 }
      = .ok ⟨45.793, 0, 20, 13.993, 11.80, 0⟩ ∧
    quote trivialMath [] (fun _ => none) [] "10001"
      { zip_code := "33179", filament_type := "PLA Basic", quantity := 1,
        rush_order := false, use_usps_connect_local := false,
        service_type := "ground_advantage", volume := 0, weight := 700 }
      = .ok ⟨45.793, 0, 20, 13.993, 11.80, 0⟩ ∧
    (11.80 : ℚ) ≠ 0.85 * 11.80 := by
  refine ⟨by with_unfolding_all rfl, by with_unfolding_all rfl, by norm_num⟩

set_option maxHeartbeats 2000000 in
/-- Claim C3: whenever the resolved sub-pound bracket is the 4, 8 or 12 ounce
tier (`get_weight_bracket` returns `(k, true)` with k ∈ {4, 8, 12}),
`calculate_usps_shipping` returns the price stored under the *numeric* key k —
the k-pound row of the table — and at the computed zone that price differs
from the one stored under the ounce row's string key `OZ_KEY_MAP[k]`. -/
theorem claim_C3_subpound_uses_pound_row (M : MathFns) (cache : ZipCache)
    (origin dest service : String) (weight_kg k : ℚ)
    (tbl : List (PyKey × List (Nat × ℚ))) (z : Nat)
    (hk : k = 4 ∨ k = 8 ∨ k = 12)
    (hb : get_weight_bracket (pyRound (weight_kg * 1000 / GRAMS_PER_LB) 2) = (k, true))
    (ht : rateTableFor service = some tbl)
    (hzone : get_usps_zone_from_distance
      (calculate_distance_between_zips M cache origin dest) = z) :
    calculate_usps_shipping M cache origin dest weight_kg service
      = (pyGet tbl (PyKey.num k)).bind (fun row => zoneGet row z) ∧
    (pyGet tbl (PyKey.num k)).bind (fun row => zoneGet row z) ≠
      (pyGet tbl (PyKey.str (ozKeyName k))).bind (fun row => zoneGet row z) := by
  constructor
  · simp only [calculate_usps_shipping]
    rw [hb, ht, hzone]
    cases hpg : pyGet tbl (PyKey.num k) <;> simp [hpg]
  · have hz1 := (zone_bounds (calculate_distance_between_zips M cache origin dest)).1
    have hz9 := (zone_bounds (calculate_distance_between_zips M cache origin dest)).2
    rw [hzone] at hz1 hz9
    have htbl := rateTableFor_cases ht
    rcases hk with rfl | rfl | rfl <;> rcases htbl with rfl | rfl | rfl <;>
      interval_cases z <;> with_unfolding_all decide

set_option maxRecDepth 4000 in
/-- Claim C3 witness: a 0.1 kg package (0.22 lbs, bracket (4, true)) shipped
ground advantage with both ZIPs absent from the cache (zone 4): the returned
price is the 4-pound row's zone-4 price, not the "4_oz" row's. -/
theorem claim_C3_witness :
    calculate_usps_shipping trivialMath [] "10001" "33179" 0.1 "ground_advantage"
      = (pyGet USPS_GROUND_ADVANTAGE_RETAIL (PyKey.num 4)).bind (fun row => zoneGet row 4) ∧
    (pyGet USPS_GROUND_ADVANTAGE_RETAIL (PyKey.num 4)).bind (fun row => zoneGet row 4) ≠
      (pyGet USPS_GROUND_ADVANTAGE_RETAIL (PyKey.str (ozKeyName 4))).bind
        (fun row => zoneGet row 4) :=
  claim_C3_subpound_uses_pound_row trivialMath [] "10001" "33179" "ground_advantage"
    0.1 4 USPS_GROUND_ADVANTAGE_RETAIL 4 (Or.inl rfl)
    (by with_unfolding_all rfl) (by with_unfolding_all rfl) (by with_unfolding_all rfl)

/-- Claim C4 (code bug, evaluation at the failing input): when either ZIP is
missing from the coordinate cache, `calculate_distance_between_zips` returns
the 500-mile fallback without error, but `get_usps_zone_from_distance 500` is
4 (500 ≤ 600), not the zone 5 stated by the claim and by the code's own
comment. -/
theorem claim_C4_fallback_zone :
    calculate_distance_between_zips trivialMath [] "00000" "11111" = 500 ∧
    get_usps_zone_from_distance 500 = 4 ∧
    get_usps_zone_from_distance 500 ≠ 5 := by
  refine ⟨by with_unfolding_all rfl, by with_unfolding_all rfl, by with_unfolding_all decide⟩

/-- Claim C5 (code bug, evaluation at the failing input): for a 10×10×10 mm
item weighing 100 kg, `calculate_packing` computes `max_items_per_weight = 0`,
so `items_packed = 0 < quantity` and `math.ceil(quantity / items_packed)`
raises `ZeroDivisionError` (modelled as `none`) — refuting the claim that
`calculate_packing` always returns a `PackingResult`. -/
theorem claim_C5_packing_zero_division :
    calculate_packing (some 10) (some 10) (some 10) 1 100000 "USPS Ground Advantage" 50
      = none := by
  with_unfolding_all rfl

/-- Claim C6 counterexample: a quote request with a valid filament but the
unknown service tier "overnight" fails with HTTP status 500 (the `KeyError`
from `RATE_TABLES[service_type]` lands in the generic exception handler), not
with a 400-class client error as claimed. -/
theorem claim_C6_counterexample :
    quote trivialMath [] (fun _ => none) [] "10001"
      { zip_code := "33179", filament_type := "PLA Basic", quantity := 1,
        rush_order := false, use_usps_connect_local := false,
        service_type := "overnight", volume := 0, weight := 700 }
      = .error ⟨500, "KeyError"⟩ ∧
    ¬ (400 ≤ 500 ∧ 500 < 500) :=
  ⟨by with_unfolding_all rfl, by norm_num⟩

/-- Claim C6 as amended: an unknown filament type fails fast with a 400-class
client error, and an unknown service tier also fails fast — but with a
500-class error — and in neither case is a substituted price returned. -/
theorem claim_C6_amended (M : MathFns) (cache : ZipCache)
    (stateOf : String → Option String) (rates : List (String × ℚ)) (origin : String)
    (r : QuoteRequest) (hz : ¬ r.zip_code = "") (hf : ¬ r.filament_type = "") :
    ((¬ ((sGet material_densities r.filament_type).isSome ∧
         (sGet filament_prices r.filament_type).isSome)) →
      quote M cache stateOf rates origin r = .error ⟨400, "Invalid filament type"⟩) ∧
    (rateTableFor r.service_type = none →
     ((sGet material_densities r.filament_type).isSome ∧
      (sGet filament_prices r.filament_type).isSome) →
      quote M cache stateOf rates origin r = .error ⟨500, "KeyError"⟩) := by
  constructor
  · intro hbad
    unfold quote
    rw [if_neg (by push_neg; exact ⟨hz, hf⟩), if_pos hbad]
  · intro hsvc hgood
    unfold quote
    rw [if_neg (by push_neg; exact ⟨hz, hf⟩), if_neg (by simp [hgood])]
    have hnone : ∀ w : ℚ,
        calculate_usps_shipping M cache origin r.zip_code w r.service_type = none := by
      intro w
      unfold calculate_usps_shipping
      rw [hsvc]
    simp only [hnone]

/-- Claim C6 witness: the amended statement instantiated at a concrete
request with an unknown service tier ("overnight") and at one with the
catalog-less filament "PETG Basic". -/
theorem claim_C6_witness :
    ((¬ ((sGet material_densities "PLA Basic").isSome ∧
         (sGet filament_prices "PLA Basic").isSome)) →
      quote trivialMath [] (fun _ => none) [] "10001"
        { zip_code := "33179", filament_type := "PLA Basic", quantity := 1,
          rush_order := false, use_usps_connect_local := false,
          service_type := "overnight", volume := 0, weight := 700 }
        = .error ⟨400, "Invalid filament type"⟩) ∧
    (rateTableFor "overnight" = none →
     ((sGet material_densities "PLA Basic").isSome ∧
      (sGet filament_prices "PLA Basic").isSome) →
      quote trivialMath [] (fun _ => none) [] "10001"
        { zip_code := "33179", filament_type := "PLA Basic", quantity := 1,
          rush_order := false, use_usps_connect_local := false,
          service_type := "overnight", volume := 0, weight := 700 }
        = .error ⟨500, "KeyError"⟩) :=
  claim_C6_amended trivialMath [] (fun _ => none) [] "10001"
    { zip_code := "33179", filament_type := "PLA Basic", quantity := 1,
      rush_order := false, use_usps_connect_local := false,
      service_type := "overnight", volume := 0, weight := 700 }
    (by with_unfolding_all decide) (by with_unfolding_all decide)

/-- Claim C7: whenever `quote` succeeds, the pre-tax total
(`total_cost_with_tax - sales_tax`) equals `base_cost + material_cost +
shipping_cost + rush surcharge`, where `material_cost` is
weight_kg × unit price × quantity, the rush surcharge is 20 exactly when
`rush_order`, and the shipping cost is the `calculate_usps_shipping` value for
the packaging-inflated weight — quantity enters only through `material_cost`
(and the shipping weight), never a second time in the sum. -/
theorem claim_C7_total_decomposition (M : MathFns) (cache : ZipCache)
    (stateOf : String → Option String) (rates : List (String × ℚ)) (origin : String)
    (r : QuoteRequest) (b : QuoteNums)
    (h : quote M cache stateOf rates origin r = .ok b) :
    b.base_cost = 20 ∧
    b.material_cost =
      (if r.weight > 0 then r.weight
       else max (r.volume * (sGet material_densities r.filament_type).getD 0) MINIMUM_WEIGHT_G)
        / 1000 * (sGet filament_prices r.filament_type).getD 0 * (r.quantity : ℚ) ∧
    b.rush_order_surcharge = (if r.rush_order then (20:ℚ) else 0) ∧
    calculate_usps_shipping M cache origin r.zip_code
      ((if r.weight > 0 then r.weight
        else max (r.volume * (sGet material_densities r.filament_type).getD 0) MINIMUM_WEIGHT_G)
        * (r.quantity : ℚ) * 1.15 / 1000) r.service_type = some b.shipping_cost ∧
    b.total_cost_with_tax - b.sales_tax
      = base_cost + b.material_cost + b.shipping_cost + b.rush_order_surcharge := by
  unfold quote at h
  by_cases hc1 : r.zip_code = "" ∨ r.filament_type = ""
  · rw [if_pos hc1] at h
    exact absurd h (by simp)
  rw [if_neg hc1] at h
  by_cases hc2 : ¬ ((sGet material_densities r.filament_type).isSome ∧
      (sGet filament_prices r.filament_type).isSome)
  · rw [if_pos hc2] at h
    exact absurd h (by simp)
  rw [if_neg hc2] at h
  simp only [] at h
  split at h
  · exact absurd h (by simp)
  · rename_i shipping heq
    injection h with h
    subst h
    refine ⟨rfl, rfl, rfl, heq, ?_⟩
    unfold calculate_total_with_tax
    rcases hst : stateOf r.zip_code with _ | st <;> simp only [hst]
    · ring
    · split_ifs <;> ring

/-- Claim C7 witness: a concrete successful quote — "PLA Basic", 500 g,
quantity 2, rush order, ground advantage, ZIPs absent from the cache — whose
breakdown satisfies the decomposition. -/
theorem claim_C7_witness :
    (QuoteNums.mk 72.39 0 20 19.99 12.40 20).base_cost = 20 ∧
    (QuoteNums.mk 72.39 0 20 19.99 12.40 20).material_cost =
      (if (500 : ℚ) > 0 then (500 : ℚ)
       else max (0 * (sGet material_densities "PLA Basic").getD 0) MINIMUM_WEIGHT_G)
        / 1000 * (sGet filament_prices "PLA Basic").getD 0 * ((2 : Int) : ℚ) ∧
    (QuoteNums.mk 72.39 0 20 19.99 12.40 20).rush_order_surcharge
      = (if true then (20:ℚ) else 0) ∧
    calculate_usps_shipping trivialMath [] "10001" "33179"
      ((if (500 : ℚ) > 0 then (500 : ℚ)
        else max (0 * (sGet material_densities "PLA Basic").getD 0) MINIMUM_WEIGHT_G)
        * ((2 : Int) : ℚ) * 1.15 / 1000) "ground_advantage"
      = some (QuoteNums.mk 72.39 0 20 19.99 12.40 20).shipping_cost ∧
    (QuoteNums.mk 72.39 0 20 19.99 12.40 20).total_cost_with_tax
        - (QuoteNums.mk 72.39 0 20 19.99 12.40 20).sales_tax
      = base_cost + (QuoteNums.mk 72.39 0 20 19.99 12.40 20).material_cost
        + (QuoteNums.mk 72.39 0 20 19.99 12.40 20).shipping_cost
        + (QuoteNums.mk 72.39 0 20 19.99 12.40 20).rush_order_surcharge :=
  claim_C7_total_decomposition trivialMath [] (fun _ => none) [] "10001"
    { zip_code := "33179", filament_type := "PLA Basic", quantity := 2,
      rush_order := true, use_usps_connect_local := false,
      service_type := "ground_advantage", volume := 0, weight := 500 }
    (QuoteNums.mk 72.39 0 20 19.99 12.40 20)
    (by with_unfolding_all rfl)

set_option maxHeartbeats 2000000 in
/-- Claim C8: for every distance `0 ≤ d ≤ e`, the zone of `d` lies in [1, 9],
the zone function is monotonically non-decreasing, and the zone of `d` is
determined by exactly the claimed breakpoints (≤50→1, ≤150→2, ≤300→3, ≤600→4,
≤1000→5, ≤1400→6, ≤1800→7, ≤2000→8, else 9). -/
theorem claim_C8_zone_total_monotone (d e : ℚ) (hd : 0 ≤ d) (hde : d ≤ e) :
    (1 ≤ get_usps_zone_from_distance d ∧ get_usps_zone_from_distance d ≤ 9) ∧
    get_usps_zone_from_distance d ≤ get_usps_zone_from_distance e ∧
    (get_usps_zone_from_distance d = 1 ↔ d ≤ 50) ∧
    (get_usps_zone_from_distance d = 2 ↔ 50 < d ∧ d ≤ 150) ∧
    (get_usps_zone_from_distance d = 3 ↔ 150 < d ∧ d ≤ 300) ∧
    (get_usps_zone_from_distance d = 4 ↔ 300 < d ∧ d ≤ 600) ∧
    (get_usps_zone_from_distance d = 5 ↔ 600 < d ∧ d ≤ 1000) ∧
    (get_usps_zone_from_distance d = 6 ↔ 1000 < d ∧ d ≤ 1400) ∧
    (get_usps_zone_from_distance d = 7 ↔ 1400 < d ∧ d ≤ 1800) ∧
    (get_usps_zone_from_distance d = 8 ↔ 1800 < d ∧ d ≤ 2000) ∧
    (get_usps_zone_from_distance d = 9 ↔ 2000 < d) := by
  refine ⟨zone_bounds d, zone_mono hde, ?_, ?_, ?_, ?_, ?_, ?_, ?_, ?_, ?_⟩ <;>
    · unfold get_usps_zone_from_distance
      split_ifs <;> simp_all <;>
        first
          | linarith
          | (constructor <;> linarith)
          | (rintro ⟨hx1, hx2⟩ <;> linarith)
          | (intro hx <;> linarith)

/-- Claim C8 witness: the statement instantiated at distances 3 and 100. -/
theorem claim_C8_witness :
    (1 ≤ get_usps_zone_from_distance 3 ∧ get_usps_zone_from_distance 3 ≤ 9) ∧
    get_usps_zone_from_distance 3 ≤ get_usps_zone_from_distance 100 ∧
    (get_usps_zone_from_distance 3 = 1 ↔ (3:ℚ) ≤ 50) ∧
    (get_usps_zone_from_distance 3 = 2 ↔ (50:ℚ) < 3 ∧ (3:ℚ) ≤ 150) ∧
    (get_usps_zone_from_distance 3 = 3 ↔ (150:ℚ) < 3 ∧ (3:ℚ) ≤ 300) ∧
    (get_usps_zone_from_distance 3 = 4 ↔ (300:ℚ) < 3 ∧ (3:ℚ) ≤ 600) ∧
    (get_usps_zone_from_distance 3 = 5 ↔ (600:ℚ) < 3 ∧ (3:ℚ) ≤ 1000) ∧
    (get_usps_zone_from_distance 3 = 6 ↔ (1000:ℚ) < 3 ∧ (3:ℚ) ≤ 1400) ∧
    (get_usps_zone_from_distance 3 = 7 ↔ (1400:ℚ) < 3 ∧ (3:ℚ) ≤ 1800) ∧
    (get_usps_zone_from_distance 3 = 8 ↔ (1800:ℚ) < 3 ∧ (3:ℚ) ≤ 2000) ∧
    (get_usps_zone_from_distance 3 = 9 ↔ (2000:ℚ) < 3) :=
  claim_C8_zone_total_monotone 3 100 (by norm_num) (by norm_num)

/-- Claim C9: for every state present in the loaded sales-tax table (whose
loader already divides the percentage figure by 100) and every subtotal, the
checkout endpoint's recalculated sales tax equals the truncation of one
hundredth of the sales tax that `calculate_total_with_tax` (the quote
endpoint) computes for the same subtotal, because checkout divides the stored
rate by 100 a second time. -/
theorem claim_C9_checkout_tax_hundredth (rows : List (String × ℚ))
    (stateOf : String → Option String) (request_state : Option String)
    (zip st : String) (rate : ℚ) (subtotal_cents : Int)
    (hst : stateOf zip = some st) (hne : ¬ st = "")
    (hrate : sGet (load_sales_tax_rates rows) st = some rate) :
    checkout_sales_tax_cents (load_sales_tax_rates rows) stateOf request_state zip
        subtotal_cents
      = pyInt ((calculate_total_with_tax zip (subtotal_cents : ℚ)
          (load_sales_tax_rates rows) stateOf).2 / 100) ∧
    (calculate_total_with_tax zip (subtotal_cents : ℚ) (load_sales_tax_rates rows) stateOf).2
      = rate * (subtotal_cents : ℚ) := by
  have h2 : (calculate_total_with_tax zip (subtotal_cents : ℚ)
      (load_sales_tax_rates rows) stateOf).2 = rate * (subtotal_cents : ℚ) := by
    unfold calculate_total_with_tax
    rw [hst]
    dsimp only
    rw [if_neg hne, hrate]
    rfl
  refine ⟨?_, h2⟩
  rw [h2]
  unfold checkout_sales_tax_cents
  rw [hst]
  dsimp only
  rw [if_neg hne, hrate]
  ring_nf

/-- Claim C9 witness: the statement instantiated at a one-row table
("California", 7.25%), a resolver returning that state, and a 10000-cent
subtotal. -/
theorem claim_C9_witness :
    checkout_sales_tax_cents (load_sales_tax_rates [("California", 7.25)])
        (fun _ => some "California") none "90001" 10000
      = pyInt ((calculate_total_with_tax "90001" ((10000 : Int) : ℚ)
          (load_sales_tax_rates [("California", 7.25)]) (fun _ => some "California")).2 / 100) ∧
    (calculate_total_with_tax "90001" ((10000 : Int) : ℚ)
        (load_sales_tax_rates [("California", 7.25)]) (fun _ => some "California")).2
      = 0.0725 * ((10000 : Int) : ℚ) :=
  claim_C9_checkout_tax_hundredth [("California", 7.25)] (fun _ => some "California")
    none "90001" "California" 0.0725 10000 rfl (by with_unfolding_all decide)
    (by with_unfolding_all rfl)

/-- Claim C10: `calculate_distance_between_zips` is symmetric in its two ZIP
arguments — in the Haversine branch because sine is odd (the squared
half-angle sine terms are invariant under negating the coordinate
differences) and the cosine factors commute, and in the missing-ZIP branch
because the 500-mile fallback does not depend on argument order. -/
theorem claim_C10_distance_symmetric (M : MathFns)
    (hodd : ∀ x, M.sin (-x) = - M.sin x) (cache : ZipCache) (a b : String) :
    calculate_distance_between_zips M cache a b
      = calculate_distance_between_zips M cache b a := by
  unfold calculate_distance_between_zips
  cases h1 : zipLookup cache a <;> cases h2 : zipLookup cache b <;> simp only []
  rw [haversineMiles_symm M hodd]

/-- Claim C10 witness: symmetry instantiated with an odd "sine", a two-entry
cache and both lookup orders. -/
theorem claim_C10_witness :
    calculate_distance_between_zips oddMath
        [("10001", (40.75, -73.99)), ("94105", (37.79, -122.39))] "10001" "94105"
      = calculate_distance_between_zips oddMath
        [("10001", (40.75, -73.99)), ("94105", (37.79, -122.39))] "94105" "10001" :=
  claim_C10_distance_symmetric oddMath (fun _ => rfl)
    [("10001", (40.75, -73.99)), ("94105", (37.79, -122.39))] "10001" "94105"
